import Mathlib

/-!
Verification development for the "Math Reflex" timed true/false arithmetic
quiz game.  The definitions below are a shallow embedding of the game's core
logic: the data model (types.ts), the tick loop, timeout handler, difficulty
controller and swipe evaluator (App.tsx), and the question-source fallback
generator (geminiService.ts).  React state hooks are modelled as fields of a
single record `AppState`; each event handler becomes a pure transition
function on that record.  Asynchronous question refills (`loadQuestions`) are
modelled by recording the request `(count, level)` in `refillReqs`, with a
separate `loadQuestionsResolve` applying the eventual result; sound
side-effects are recorded in `soundLog`.  Real-number game quantities are
modelled as rationals.
-/

namespace MathReflex

/-- Game phases (types.ts `GameState`). -/
inductive GameState where
  | MENU
  | LOADING
  | PLAYING
  | GAME_OVER
deriving DecidableEq

/-- Swipe directions (types.ts `SwipeDirection`); `NONE` encodes a timeout. -/
inductive SwipeDirection where
  | LEFT
  | RIGHT
  | NONE
deriving DecidableEq

/-- Discrete focus classification (types.ts `FocusState`). -/
inductive FocusState where
  | HIGH
  | MEDIUM
  | LOW
deriving DecidableEq

/-- A question card (types.ts `MathProblem`). -/
structure MathProblem where
  id : String
  equation : String
  isCorrect : Bool
  difficulty : ℤ
deriving DecidableEq

/-- Audio side effects (audioService.ts `playCorrectSound` / `playIncorrectSound`). -/
inductive Sound where
  | correct
  | incorrect
deriving DecidableEq

/-- App.tsx line 9: total game time in seconds. -/
def MAX_GAME_TIME : ℚ := 150

/-- App.tsx line 10: questions per difficulty round. -/
def QUESTIONS_PER_ROUND : ℕ := 10

/-- The complete mutable session state of the App component: one field per
React `useState` hook of App.tsx (the cosmetic `dragOffset` is omitted), plus
the two effect logs `refillReqs` (each `loadQuestions` call, as
`(QUESTIONS_PER_ROUND, targetLevel)`) and `soundLog`. -/
structure AppState where
  gameState : GameState
  questions : List MathProblem
  score : ℕ
  gameTimeLeft : ℚ
  questionTimeLeft : ℚ
  currentQuestionMaxTime : ℚ
  streak : ℕ
  level : ℤ
  questionsAnswered : ℕ
  roundCorrectCount : ℕ
  roundHistory : List ℚ
  focusScore : ℚ
  refillReqs : List (ℕ × ℤ)
  soundLog : List Sound
deriving DecidableEq

/-- App.tsx lines 46-60 `getQuestionTimeLimit`: per-level question time limit
in seconds; the `default` arm returns 4. -/
def getQuestionTimeLimit (lvl : ℤ) : ℚ :=
  if lvl = 1 then 4
  else if lvl = 2 then 6
  else if lvl = 3 then 6
  else if lvl = 4 then 10
  else if lvl = 5 then 14
  else if lvl = 6 then 16
  else if lvl = 7 then 20
  else if lvl = 8 then 22
  else if lvl = 9 then 26
  else if lvl = 10 then 30
  else 4

/-- App.tsx line 140: natural focus decay applied on every tick,
`setFocusScore(prev => Math.max(0, prev - 0.15))`. -/
def focusDecay (current : ℚ) : ℚ := max 0 (current - 15/100)

/-- App.tsx line 233: focus reward on a successful judgment,
`setFocusScore(prev => Math.min(100, prev + 4))`. -/
def focusReward (current : ℚ) : ℚ := min 100 (current + 4)

/-- App.tsx line 243: focus penalty on a failed judgment,
`setFocusScore(prev => Math.max(0, prev - 12))`. -/
def focusPenalize (current : ℚ) : ℚ := max 0 (current - 12)

/-- App.tsx lines 96-100 `getFocusState`: classify the numeric focus score. -/
def getFocusState (score : ℚ) : FocusState :=
  if score ≥ 55 then FocusState.HIGH
  else if score > 30 then FocusState.MEDIUM
  else FocusState.LOW

/-- App.tsx lines 40-43 `loadQuestions`, request side: it always asks the
question source for `QUESTIONS_PER_ROUND` questions at `targetLevel`.  The
asynchronous call is modelled by appending the request to `refillReqs`. -/
def loadQuestionsRequest (targetLevel : ℤ) (s : AppState) : AppState :=
  { s with refillReqs := s.refillReqs ++ [(QUESTIONS_PER_ROUND, targetLevel)] }

/-- App.tsx line 42, resolution side of `loadQuestions`:
`setQuestions(prev => [...prev, ...newQuestions])` appends the fetched
questions to the existing queue. -/
def loadQuestionsResolve (newQuestions : List MathProblem) (s : AppState) : AppState :=
  { s with questions := s.questions ++ newQuestions }

/-- App.tsx lines 113-119: simulated seconds consumed per real 100ms tick,
selected from the focus score (time dilation). -/
def timePassed (focusScore : ℚ) : ℚ :=
  if focusScore ≥ 55 then 7/100
  else if focusScore ≤ 30 then 14/100
  else 1/10

/-- App.tsx lines 107-142: the body of the 100ms interval callback, which is
installed only while `PLAYING`.  It decrements the global timer (ending the
game when the decrement would reach or cross 0), decrements the question
timer floored at 0 when the queue is non-empty, and decays focus. -/
def tick (s : AppState) : AppState :=
  let tp := timePassed s.focusScore
  let s1 :=
    if s.gameTimeLeft ≤ tp then
      { s with gameTimeLeft := 0, gameState := GameState.GAME_OVER }
    else
      { s with gameTimeLeft := s.gameTimeLeft - tp }
  let s2 :=
    if 0 < s.questions.length then
      { s1 with questionTimeLeft := max 0 (s1.questionTimeLeft - tp) }
    else s1
  { s2 with focusScore := focusDecay s2.focusScore }

/-- App.tsx lines 152-157, the guard of the question-timeout effect: while
`PLAYING`, a question timer at (or below) 0 with a non-empty queue fires a
synthetic `handleSwipe NONE`. -/
def timeoutPending (s : AppState) : Prop :=
  s.gameState = GameState.PLAYING ∧ s.questionTimeLeft ≤ 0 ∧ 0 < s.questions.length

instance (s : AppState) : Decidable (timeoutPending s) := by
  unfold timeoutPending; infer_instance

/-- App.tsx lines 162-196 `checkDifficulty`: level-down when the round
accuracy is ≤ 1/2, else level-up when the average with the previous round's
accuracy exceeds 9/10; on an actual level change the history is cleared and a
refill at the new level is requested, otherwise the accuracy is appended to
the history and a refill is requested when the (captured, pre-pop) queue is
shorter than 5. -/
def checkDifficulty (finalRoundAccuracy : ℚ) (s : AppState) : AppState :=
  let prevRoundAccuracy := s.roundHistory.getLastD 0
  let twoRoundAverage := (finalRoundAccuracy + prevRoundAccuracy) / 2
  let newLevel : ℤ :=
    if finalRoundAccuracy ≤ 1/2 then max 1 (s.level - 1)
    else if 0 < s.roundHistory.length ∧ twoRoundAverage > 9/10 then min 10 (s.level + 1)
    else s.level
  if (finalRoundAccuracy ≤ 1/2 ∨ (0 < s.roundHistory.length ∧ twoRoundAverage > 9/10))
      ∧ newLevel ≠ s.level then
    loadQuestionsRequest newLevel { s with level := newLevel, roundHistory := [] }
  else
    let s1 := { s with roundHistory := s.roundHistory ++ [finalRoundAccuracy] }
    if s.questions.length < 5 then loadQuestionsRequest s.level s1 else s1

/-- App.tsx lines 202-263 `handleSwipe`: judge the front question.  A no-op on
an empty queue; otherwise the question timer is reset to the limit of the
level captured at entry, the judgment is scored (success iff RIGHT on a
correct card or LEFT on an incorrect one; `NONE` = timeout is never a
success), round bookkeeping runs (invoking `checkDifficulty` on every 10th
judgment, else refilling when the captured queue length is below 5), and the
front card is popped. -/
def handleSwipe (direction : SwipeDirection) (s : AppState) : AppState :=
  match s.questions with
  | [] => s
  | currentCard :: rest =>
    let nextLimit := getQuestionTimeLimit s.level
    let s0 := { s with currentQuestionMaxTime := nextLimit, questionTimeLeft := nextLimit }
    let isSuccess : Bool :=
      match direction with
      | SwipeDirection.RIGHT => currentCard.isCorrect
      | SwipeDirection.LEFT => !currentCard.isCorrect
      | SwipeDirection.NONE => false
    let s1 :=
      if isSuccess then
        { s0 with
          soundLog := s0.soundLog ++ [Sound.correct],
          score := s.score + 10 + s.streak * 2,
          streak := s.streak + 1,
          roundCorrectCount := s.roundCorrectCount + 1,
          focusScore := focusReward s.focusScore }
      else
        { s0 with
          soundLog :=
            if direction ≠ SwipeDirection.NONE then s0.soundLog ++ [Sound.incorrect]
            else s0.soundLog,
          streak := 0,
          focusScore := focusPenalize s.focusScore }
    let nextQuestionCount := s.questionsAnswered + 1
    let s2 := { s1 with questionsAnswered := nextQuestionCount }
    let s3 :=
      if nextQuestionCount % QUESTIONS_PER_ROUND = 0 then
        let finalRoundCorrect :=
          if isSuccess then s.roundCorrectCount + 1 else s.roundCorrectCount
        let accuracy : ℚ := (finalRoundCorrect : ℚ) / (QUESTIONS_PER_ROUND : ℚ)
        let s4 := checkDifficulty accuracy s2
        { s4 with roundCorrectCount := 0 }
      else
        if s.questions.length < 5 then loadQuestionsRequest s.level s2 else s2
    { s3 with questions := rest }

/-- App.tsx lines 62-88 `startGame`: reset every session field to its initial
value, set the question timer to the level-1 limit, request the first batch of
questions at level 1, and enter `LOADING` (the handler moves to `PLAYING`
once that load resolves). -/
def startGame (s : AppState) : AppState :=
  let startLimit := getQuestionTimeLimit 1
  loadQuestionsRequest 1
    { s with
      gameState := GameState.LOADING,
      score := 0,
      streak := 0,
      focusScore := 50,
      gameTimeLeft := MAX_GAME_TIME,
      questions := [],
      level := 1,
      questionsAnswered := 0,
      roundCorrectCount := 0,
      roundHistory := [],
      currentQuestionMaxTime := startLimit,
      questionTimeLeft := startLimit }

/-!
Question-source fallback generator (services/geminiService.ts).  The remote
call is nondeterministic; the fallback path is modelled with its random draws
passed in explicitly.
-/

/-- geminiService.ts lines 27-49, the level-1 arm of `generateEquationForLevel`:
`opPlus` is the draw `ops[randomInt(0,1)]` (true = `'+'`), `a` and `b` the
draws `randomInt(1,10)`.  Returns the rendered left-hand side together with
its true value (`correctAnswer`). -/
def level1Equation (opPlus : Bool) (a b : ℤ) : String × ℤ :=
  if opPlus then
    let sum := a + b
    if sum ≤ 10 then (toString a ++ " + " ++ toString b, sum)
    else (toString sum ++ " - " ++ toString b, a)
  else
    let mx := max a b
    let mn := min a b
    (toString mx ++ " - " ++ toString mn, mx - mn)

/-- geminiService.ts lines 328-338: the final display value.  When the
question should be incorrect, an offset `offsetMag ∈ [1,5]`
(`randomInt(1,5)`) with sign drawn from `signPos` (`Math.random() > 0.5`) is
added to the true value, and a negative result is replaced by its absolute
value. -/
def displayValue (shouldBeCorrect : Bool) (correctAnswer offsetMag : ℤ)
    (signPos : Bool) : ℤ :=
  if shouldBeCorrect then correctAnswer
  else
    let offset := offsetMag * (if signPos then 1 else -1)
    let dv := correctAnswer + offset
    if dv < 0 then |dv| else dv

/-- Result of one fallback generation, keeping the true value of the rendered
left-hand side alongside the displayed right-hand value so that the
"plausible-but-wrong" property can be stated. -/
structure EquationResult where
  equation : String
  isCorrect : Bool
  trueValue : ℤ
  displayed : ℤ
deriving DecidableEq

/-- geminiService.ts lines 16-344 specialised to a level-1 draw: combine the
level-1 equation with the display step and render
`` `${equationStr} = ${displayValue}` ``. -/
def generateEquationLevel1 (shouldBeCorrect opPlus : Bool) (a b offsetMag : ℤ)
    (signPos : Bool) : EquationResult :=
  let p := level1Equation opPlus a b
  let dv := displayValue shouldBeCorrect p.2 offsetMag signPos
  { equation := p.1 ++ " = " ++ toString dv,
    isCorrect := shouldBeCorrect,
    trueValue := p.2,
    displayed := dv }

/-- geminiService.ts lines 411-425, the catch branch of `generateQuestions`:
on any failure of the remote source, build `count` problems locally, each
tagged `difficulty := level`.  `gen i` abstracts the i-th call of
`generateEquationForLevel level` (each call consumes fresh random draws); the
id uses the loop index (the `Date.now()` part is omitted). -/
def generateQuestionsFallback (count : ℕ) (level : ℤ)
    (gen : ℕ → String × Bool) : List MathProblem :=
  (List.range count).map fun i =>
    { id := "local-" ++ toString i,
      equation := (gen i).1,
      isCorrect := (gen i).2,
      difficulty := level }

/-!
Concrete example states, used in counterexamples and witnesses.
-/

/-- A concrete question card. -/
def exProblem (b : Bool) : MathProblem :=
  { id := "q", equation := "1 + 1 = 2", isCorrect := b, difficulty := 1 }

/-- A mid-game state: playing at level 1 with a queue of five correct cards. -/
def exPlaying : AppState :=
  { gameState := GameState.PLAYING,
    questions := [exProblem true, exProblem true, exProblem true, exProblem true,
      exProblem true],
    score := 0, gameTimeLeft := 100, questionTimeLeft := 2,
    currentQuestionMaxTime := 4, streak := 0, level := 1, questionsAnswered := 0,
    roundCorrectCount := 0, roundHistory := [], focusScore := 50,
    refillReqs := [], soundLog := [] }

/-- A state one judgment away from completing a perfect second round at
level 1 (previous round accuracy 1 recorded), so a correct swipe levels up. -/
def exLevelUp : AppState :=
  { exPlaying with
    questions := [exProblem true, exProblem true],
    questionsAnswered := 9, roundCorrectCount := 9, roundHistory := [1] }

/-- A state whose question timer has run out while the queue is non-empty. -/
def exTimedOut : AppState :=
  { exPlaying with questionTimeLeft := 0 }

/-!
Helper lemmas.
-/

/-- Every per-level question time limit is positive. -/
theorem getQuestionTimeLimit_pos (lvl : ℤ) : 0 < getQuestionTimeLimit lvl := by
  simp only [getQuestionTimeLimit]
  split_ifs <;> norm_num

/-- The function `checkDifficulty` does not change the game phase. -/
@[simp] theorem checkDifficulty_gameState (a : ℚ) (s : AppState) :
    (checkDifficulty a s).gameState = s.gameState := by
  simp only [checkDifficulty, loadQuestionsRequest]
  split_ifs <;> rfl

/-- The function `checkDifficulty` does not change the question queue (refills
it requests are asynchronous). -/
@[simp] theorem checkDifficulty_questions (a : ℚ) (s : AppState) :
    (checkDifficulty a s).questions = s.questions := by
  simp only [checkDifficulty, loadQuestionsRequest]
  split_ifs <;> rfl

/-- The function `checkDifficulty` does not change the question timer. -/
@[simp] theorem checkDifficulty_questionTimeLeft (a : ℚ) (s : AppState) :
    (checkDifficulty a s).questionTimeLeft = s.questionTimeLeft := by
  simp only [checkDifficulty, loadQuestionsRequest]
  split_ifs <;> rfl

/-- The function `checkDifficulty` does not change the question timer maximum. -/
@[simp] theorem checkDifficulty_currentQuestionMaxTime (a : ℚ) (s : AppState) :
    (checkDifficulty a s).currentQuestionMaxTime = s.currentQuestionMaxTime := by
  simp only [checkDifficulty, loadQuestionsRequest]
  split_ifs <;> rfl

/-- The function `checkDifficulty` does not change the score. -/
@[simp] theorem checkDifficulty_score (a : ℚ) (s : AppState) :
    (checkDifficulty a s).score = s.score := by
  simp only [checkDifficulty, loadQuestionsRequest]
  split_ifs <;> rfl

/-- The function `checkDifficulty` does not change the streak. -/
@[simp] theorem checkDifficulty_streak (a : ℚ) (s : AppState) :
    (checkDifficulty a s).streak = s.streak := by
  simp only [checkDifficulty, loadQuestionsRequest]
  split_ifs <;> rfl

/-- The function `checkDifficulty` does not change the questions-answered counter. -/
@[simp] theorem checkDifficulty_questionsAnswered (a : ℚ) (s : AppState) :
    (checkDifficulty a s).questionsAnswered = s.questionsAnswered := by
  simp only [checkDifficulty, loadQuestionsRequest]
  split_ifs <;> rfl

/-- The function `checkDifficulty` does not change the focus score. -/
@[simp] theorem checkDifficulty_focusScore (a : ℚ) (s : AppState) :
    (checkDifficulty a s).focusScore = s.focusScore := by
  simp only [checkDifficulty, loadQuestionsRequest]
  split_ifs <;> rfl

/-- The function `checkDifficulty` does not play sounds. -/
@[simp] theorem checkDifficulty_soundLog (a : ℚ) (s : AppState) :
    (checkDifficulty a s).soundLog = s.soundLog := by
  simp only [checkDifficulty, loadQuestionsRequest]
  split_ifs <;> rfl

/-- The function `checkDifficulty` does not change the round-correct counter. -/
@[simp] theorem checkDifficulty_roundCorrectCount (a : ℚ) (s : AppState) :
    (checkDifficulty a s).roundCorrectCount = s.roundCorrectCount := by
  simp only [checkDifficulty, loadQuestionsRequest]
  split_ifs <;> rfl

/-- On a non-empty queue, `handleSwipe` pops the front card, resets the
question timer (and its displayed maximum) to the limit of the level captured
at entry, keeps the game phase, and counts the judgment. -/
theorem handleSwipe_fields (d : SwipeDirection) (s : AppState) (c : MathProblem)
    (rest : List MathProblem) (hq : s.questions = c :: rest) :
    (handleSwipe d s).questions = rest ∧
    (handleSwipe d s).questionTimeLeft = getQuestionTimeLimit s.level ∧
    (handleSwipe d s).currentQuestionMaxTime = getQuestionTimeLimit s.level ∧
    (handleSwipe d s).gameState = s.gameState ∧
    (handleSwipe d s).questionsAnswered = s.questionsAnswered + 1 := by
  simp only [handleSwipe, hq]
  split_ifs <;> simp [loadQuestionsRequest]

/-!
Claim theorems.
-/

/-- C7: for every focus score `s` in `[0,100]`, the tick decay is `s - 0.15`
clamped to `[0,100]`, a correct judgment applies `min(100, s + 4)`, an
incorrect one `max(0, s - 12)`, classification is HIGH iff `s ≥ 55`, LOW iff
`s ≤ 30`, MEDIUM otherwise (in particular at 55, 54.999, 30 and 30.001), and
the bounds `0 ≤ decay(s) ≤ s`, `0 ≤ reward(s) ≤ 100`, `0 ≤ penalize(s) ≤ s`
hold. -/
theorem C7_focus_model (s : ℚ) (h0 : 0 ≤ s) (h1 : s ≤ 100) :
    focusDecay s = max 0 (min 100 (s - 15/100)) ∧
    0 ≤ focusDecay s ∧ focusDecay s ≤ s ∧
    0 ≤ focusReward s ∧ focusReward s ≤ 100 ∧
    0 ≤ focusPenalize s ∧ focusPenalize s ≤ s ∧
    (getFocusState s = FocusState.HIGH ↔ 55 ≤ s) ∧
    (getFocusState s = FocusState.LOW ↔ s ≤ 30) ∧
    (getFocusState s = FocusState.MEDIUM ↔ 30 < s ∧ s < 55) ∧
    getFocusState 55 = FocusState.HIGH ∧
    getFocusState (54999/1000) = FocusState.MEDIUM ∧
    getFocusState 30 = FocusState.LOW ∧
    getFocusState (30001/1000) = FocusState.MEDIUM := by
  refine ⟨?_, ?_, ?_, ?_, ?_, ?_, ?_, ?_, ?_, ?_, ?_, ?_, ?_, ?_⟩
  · rw [focusDecay, min_eq_right (by linarith)]
  · exact le_max_left _ _
  · exact max_le h0 (by linarith)
  · exact le_min (by norm_num) (by linarith)
  · exact min_le_left _ _
  · exact le_max_left _ _
  · exact max_le h0 (by linarith)
  · simp only [getFocusState]
    split_ifs with ha hb <;> simp_all
  · simp only [getFocusState]
    split_ifs with ha hb <;> simp_all
    linarith
  · simp only [getFocusState]
    split_ifs with ha hb
    · refine iff_of_false (by decide) ?_
      rintro ⟨h2, h3⟩
      linarith
    · exact iff_of_true rfl ⟨hb, not_le.mp ha⟩
    · refine iff_of_false (by decide) ?_
      rintro ⟨h2, h3⟩
      exact hb h2
  · norm_num [getFocusState]
  · norm_num [getFocusState]
  · norm_num [getFocusState]
  · norm_num [getFocusState]

/-- Witness for C7 at the concrete focus score 50. -/
theorem C7_witness : focusDecay 50 ≤ 50 :=
  (C7_focus_model 50 (by norm_num) (by norm_num)).2.2.1

/-- C10: every `startGame` initialises the session identically, whatever the
previous state: global timer `MAX_GAME_TIME = 150`, focus 50 (classified
MEDIUM, so the first tick consumes 0.10), level 1, score 0, streak 0, both
round counters 0, empty round history and question queue, and question timer
at its maximum, the level-1 limit 4. -/
theorem C10_startGame_init (s : AppState) :
    (startGame s).gameTimeLeft = 150 ∧ MAX_GAME_TIME = 150 ∧
    (startGame s).focusScore = 50 ∧ getFocusState 50 = FocusState.MEDIUM ∧
    timePassed 50 = 1/10 ∧
    (startGame s).level = 1 ∧ (startGame s).score = 0 ∧ (startGame s).streak = 0 ∧
    (startGame s).questionsAnswered = 0 ∧ (startGame s).roundCorrectCount = 0 ∧
    (startGame s).roundHistory = [] ∧ (startGame s).questions = [] ∧
    (startGame s).questionTimeLeft = 4 ∧
    (startGame s).currentQuestionMaxTime = 4 ∧
    (startGame s).questionTimeLeft = getQuestionTimeLimit 1 := by
  norm_num [startGame, loadQuestionsRequest, MAX_GAME_TIME, getQuestionTimeLimit,
    getFocusState, timePassed]

/-- C2: on every tick while PLAYING, the global timer decreases by exactly
`timePassed` (0.07 when focus ≥ 55, 0.14 when focus ≤ 30, 0.10 otherwise);
when the decrement would reach or cross zero, the timer is clamped to 0 and
the game moves to GAME_OVER in that same tick; hence the global timer is
non-increasing and never negative. -/
theorem C2_global_timer (s : AppState) (hp : s.gameState = GameState.PLAYING)
    (h0 : 0 ≤ s.gameTimeLeft) :
    (55 ≤ s.focusScore → timePassed s.focusScore = 7/100) ∧
    (s.focusScore ≤ 30 → timePassed s.focusScore = 14/100) ∧
    (30 < s.focusScore → s.focusScore < 55 → timePassed s.focusScore = 1/10) ∧
    (timePassed s.focusScore < s.gameTimeLeft →
      (tick s).gameTimeLeft = s.gameTimeLeft - timePassed s.focusScore ∧
      (tick s).gameState = GameState.PLAYING) ∧
    (s.gameTimeLeft ≤ timePassed s.focusScore →
      (tick s).gameTimeLeft = 0 ∧ (tick s).gameState = GameState.GAME_OVER) ∧
    (tick s).gameTimeLeft ≤ s.gameTimeLeft ∧
    0 ≤ (tick s).gameTimeLeft := by
  have htp : 0 < timePassed s.focusScore := by
    simp only [timePassed]
    split_ifs <;> norm_num
  refine ⟨?_, ?_, ?_, ?_, ?_, ?_, ?_⟩
  · intro h
    simp [timePassed, h]
  · intro h
    rw [timePassed, if_neg (by intro h55; linarith), if_pos h]
  · intro h30 h55
    rw [timePassed, if_neg (by intro h; linarith), if_neg (by intro h; linarith)]
  · intro hlt
    simp only [tick]
    split_ifs with h1 h2 h3
    · exact absurd h2 (not_le.mpr hlt)
    · simp [hp]
    · exact absurd h3 (not_le.mpr hlt)
    · simp [hp]
  · intro hle
    simp only [tick]
    split_ifs <;> simp_all
  · simp only [tick]
    split_ifs <;> simp <;> linarith
  · simp only [tick]
    split_ifs <;> simp <;> linarith

/-- Witness for C2: the concrete mid-game state ticks from 100s down by the
medium-focus rate 0.10. -/
theorem C2_witness : (tick exPlaying).gameTimeLeft = 999/10 := by
  have h := (C2_global_timer exPlaying rfl (by norm_num [exPlaying])).2.2.2.1
    (by norm_num [timePassed, exPlaying])
  rw [h.1]
  norm_num [timePassed, exPlaying]

/-- C8: on a tick, the question timer changes by `max 0 (prev - timePassed)`
only when the question queue is non-empty; it never becomes negative and
never decrements while the queue is empty. -/
theorem C8_question_timer (s : AppState) (h0 : 0 ≤ s.questionTimeLeft) :
    0 ≤ (tick s).questionTimeLeft ∧
    (s.questions = [] → (tick s).questionTimeLeft = s.questionTimeLeft) ∧
    (s.questions ≠ [] →
      (tick s).questionTimeLeft = max 0 (s.questionTimeLeft - timePassed s.focusScore)) := by
  refine ⟨?_, ?_, ?_⟩
  · simp only [tick]
    split_ifs <;> simp <;> linarith
  · intro hq
    simp [tick, hq]
    split_ifs <;> simp
  · intro hq
    have hl : 0 < s.questions.length := List.length_pos.mpr hq
    simp only [tick]
    rw [if_pos hl]
    split_ifs <;> simp

/-- Witness for C8 at the concrete mid-game state. -/
theorem C8_witness : 0 ≤ (tick exPlaying).questionTimeLeft :=
  (C8_question_timer exPlaying (by norm_num [exPlaying])).1

/-- C1: when the question-timeout guard fires (PLAYING, timer at 0, queue
non-empty), the synthetic `NONE` judgment it issues pops exactly the front
question and resets the timer to a positive limit, so the guard is false
immediately afterwards: at most one timeout judgment per question, and no
re-fire while the timer would otherwise sit at 0. -/
theorem C1_timeout_once (s : AppState) (h : timeoutPending s) :
    (handleSwipe SwipeDirection.NONE s).questions = s.questions.tail ∧
    0 < (handleSwipe SwipeDirection.NONE s).questionTimeLeft ∧
    ¬ timeoutPending (handleSwipe SwipeDirection.NONE s) := by
  obtain ⟨hps, hqt, hlen⟩ := h
  obtain ⟨c, rest, hq⟩ : ∃ c rest, s.questions = c :: rest := by
    cases hcs : s.questions with
    | nil =>
      rw [hcs] at hlen
      simp at hlen
    | cons a l => exact ⟨a, l, rfl⟩
  have hf := handleSwipe_fields SwipeDirection.NONE s c rest hq
  refine ⟨by rw [hf.1, hq]; rfl, ?_, ?_⟩
  · rw [hf.2.1]
    exact getQuestionTimeLimit_pos _
  · intro hpend
    have h2 := hpend.2.1
    rw [hf.2.1] at h2
    exact absurd h2 (not_le.mpr (getQuestionTimeLimit_pos _))

/-- Witness for C1 at the concrete timed-out state. -/
theorem C1_witness :
    0 < (handleSwipe SwipeDirection.NONE exTimedOut).questionTimeLeft :=
  (C1_timeout_once exTimedOut (by refine ⟨rfl, by norm_num [exTimedOut, exPlaying], by decide⟩)).2.1

/-- C4: for a judgment on a non-empty queue, success holds iff RIGHT on a
correct card or LEFT on an incorrect card, and a timeout (`NONE`) is never a
success.  On success the score grows by exactly `10 + 2·streak`, the streak
and round-correct counter increment, focus is rewarded and the success sound
plays; on failure the streak resets to 0, the score is unchanged, focus is
penalised, and the failure sound is suppressed exactly for timeouts.  From
streak 0, three consecutive successes yield score deltas 10, 12, 14. -/
theorem C4_judgment (d : SwipeDirection) (s : AppState) (c : MathProblem)
    (rest : List MathProblem) (hq : s.questions = c :: rest) :
    ((d = SwipeDirection.RIGHT ∧ c.isCorrect = true) ∨
      (d = SwipeDirection.LEFT ∧ c.isCorrect = false) →
      (handleSwipe d s).score = s.score + 10 + 2 * s.streak ∧
      (handleSwipe d s).streak = s.streak + 1 ∧
      (handleSwipe d s).focusScore = focusReward s.focusScore ∧
      (handleSwipe d s).soundLog = s.soundLog ++ [Sound.correct] ∧
      ((s.questionsAnswered + 1) % QUESTIONS_PER_ROUND ≠ 0 →
        (handleSwipe d s).roundCorrectCount = s.roundCorrectCount + 1)) ∧
    (¬((d = SwipeDirection.RIGHT ∧ c.isCorrect = true) ∨
        (d = SwipeDirection.LEFT ∧ c.isCorrect = false)) →
      (handleSwipe d s).streak = 0 ∧
      (handleSwipe d s).score = s.score ∧
      (handleSwipe d s).focusScore = focusPenalize s.focusScore ∧
      (handleSwipe d s).soundLog =
        (if d = SwipeDirection.NONE then s.soundLog
          else s.soundLog ++ [Sound.incorrect])) ∧
    (d = SwipeDirection.NONE →
      ¬((d = SwipeDirection.RIGHT ∧ c.isCorrect = true) ∨
        (d = SwipeDirection.LEFT ∧ c.isCorrect = false))) ∧
    ((handleSwipe SwipeDirection.RIGHT exPlaying).score = 10 ∧
      (handleSwipe SwipeDirection.RIGHT
        (handleSwipe SwipeDirection.RIGHT exPlaying)).score = 22 ∧
      (handleSwipe SwipeDirection.RIGHT (handleSwipe SwipeDirection.RIGHT
        (handleSwipe SwipeDirection.RIGHT exPlaying))).score = 36) := by
  refine ⟨?_, ?_, ?_, by decide⟩
  · rintro (⟨hd, hcc⟩ | ⟨hd, hcc⟩) <;> subst hd <;>
      simp only [handleSwipe, hq, hcc] <;>
      split_ifs <;>
      simp_all [loadQuestionsRequest, mul_comm]
  · intro hns
    cases d with
    | RIGHT =>
      have hcc : c.isCorrect = false := by
        cases hc : c.isCorrect
        · rfl
        · exact absurd (Or.inl ⟨rfl, hc⟩) hns
      simp only [handleSwipe, hq, hcc]
      split_ifs <;> simp_all [loadQuestionsRequest]
    | LEFT =>
      have hcc : c.isCorrect = true := by
        cases hc : c.isCorrect
        · exact absurd (Or.inr ⟨rfl, hc⟩) hns
        · rfl
      simp only [handleSwipe, hq, hcc]
      split_ifs <;> simp_all [loadQuestionsRequest]
    | NONE =>
      simp only [handleSwipe, hq]
      split_ifs <;> simp_all [loadQuestionsRequest]
  · rintro rfl (⟨h, _⟩ | ⟨h, _⟩) <;> cases h

/-- Witness for C4: a correct RIGHT swipe at the concrete mid-game state
scores exactly `10 + 2·streak`. -/
theorem C4_witness :
    (handleSwipe SwipeDirection.RIGHT exPlaying).score =
      exPlaying.score + 10 + 2 * exPlaying.streak :=
  ((C4_judgment SwipeDirection.RIGHT exPlaying (exProblem true) _ rfl).1
    (Or.inl ⟨rfl, rfl⟩)).1

/-- When `checkDifficulty` leaves the level unchanged, it requests a refill at
that level exactly when the captured (pre-pop) queue length is below 5. -/
theorem checkDifficulty_noChange_refill (a : ℚ) (t : AppState)
    (hlvl : (checkDifficulty a t).level = t.level) :
    ((checkDifficulty a t).refillReqs
        = t.refillReqs ++ [(QUESTIONS_PER_ROUND, t.level)]
      ↔ t.questions.length < 5) := by
  simp only [checkDifficulty, loadQuestionsRequest] at hlvl ⊢
  split_ifs at hlvl ⊢ with h1 h2 <;> simp_all

/-- C5 counterexample: at the concrete mid-game state the queue has five
cards, so the post-pop queue has four (fewer than 5), the judgment does not
complete a round, and yet no refill is requested — refuting "refill iff the
post-pop queue length is less than 5". -/
theorem C5_counterexample :
    (exPlaying.questionsAnswered + 1) % QUESTIONS_PER_ROUND ≠ 0 ∧
    (handleSwipe SwipeDirection.LEFT exPlaying).questions.length < 5 ∧
    (handleSwipe SwipeDirection.LEFT exPlaying).refillReqs = exPlaying.refillReqs := by
  decide

/-- C5 (amended): for a judgment that does not complete a round, the front
question is popped and a refill at the current level is requested iff the
queue length captured before the pop is below 5 (equivalently, the post-pop
length is below 4); `checkDifficulty` applies the same captured-length-below-5
condition after a round ending with no level change. -/
theorem C5_refill_pre_pop (d : SwipeDirection) (s : AppState) (c : MathProblem)
    (rest : List MathProblem) (hq : s.questions = c :: rest)
    (hr : (s.questionsAnswered + 1) % QUESTIONS_PER_ROUND ≠ 0) :
    (handleSwipe d s).questions = rest ∧
    ((handleSwipe d s).refillReqs
        = s.refillReqs ++ [(QUESTIONS_PER_ROUND, s.level)]
      ↔ s.questions.length < 5) ∧
    ((handleSwipe d s).refillReqs = s.refillReqs ↔ ¬ s.questions.length < 5) ∧
    (∀ (a : ℚ) (t : AppState), (checkDifficulty a t).level = t.level →
      ((checkDifficulty a t).refillReqs
          = t.refillReqs ++ [(QUESTIONS_PER_ROUND, t.level)]
        ↔ t.questions.length < 5)) := by
  refine ⟨?_, ?_, ?_, fun a t h => checkDifficulty_noChange_refill a t h⟩ <;>
    simp only [handleSwipe, hq] <;>
    split_ifs <;>
    simp_all [loadQuestionsRequest]

/-- Witness for C5 (amended): judging at a four-card queue requests a refill. -/
theorem C5_witness :
    (handleSwipe SwipeDirection.LEFT
        { exPlaying with questions := [exProblem true, exProblem true, exProblem true,
          exProblem true] }).refillReqs
      = exPlaying.refillReqs ++ [(QUESTIONS_PER_ROUND, exPlaying.level)] := by
  have h := (C5_refill_pre_pop SwipeDirection.LEFT
    { exPlaying with questions := [exProblem true, exProblem true, exProblem true,
      exProblem true] }
    (exProblem true) [exProblem true, exProblem true, exProblem true] rfl
    (by decide)).2.1
  exact h.mpr (by decide)

/-- C6 counterexample: at the concrete level-up state (level 1, a perfect
round completing with previous history 1), the judgment raises the level to 2,
whose table limit is 6, yet the question timer is reset to 4 — the limit of
the level captured before the change.  The first question after a level
change therefore does not run under the new level's limit. -/
theorem C6_counterexample :
    (handleSwipe SwipeDirection.RIGHT exLevelUp).level = 2 ∧
    getQuestionTimeLimit 2 = 6 ∧
    (handleSwipe SwipeDirection.RIGHT exLevelUp).questionTimeLeft = 4 ∧
    (handleSwipe SwipeDirection.RIGHT exLevelUp).questionTimeLeft ≠
      getQuestionTimeLimit (handleSwipe SwipeDirection.RIGHT exLevelUp).level := by
  have h : handleSwipe SwipeDirection.RIGHT exLevelUp =
      { exLevelUp with
        questions := [exProblem true],
        score := 10, streak := 1, questionsAnswered := 10, roundCorrectCount := 0,
        questionTimeLeft := 4, currentQuestionMaxTime := 4,
        focusScore := 54, level := 2, roundHistory := [],
        refillReqs := [(QUESTIONS_PER_ROUND, 2)],
        soundLog := [Sound.correct] } := by
    norm_num [handleSwipe, checkDifficulty, loadQuestionsRequest, exLevelUp, exPlaying,
      exProblem, QUESTIONS_PER_ROUND, getQuestionTimeLimit, focusReward]
  rw [h]
  norm_num [getQuestionTimeLimit, exLevelUp, exPlaying]

set_option maxHeartbeats 1600000 in
/-- C6 (amended): on every judgment on a non-empty queue, including
timeout-triggered ones, the question timer is reset to the time limit of the
level current at the start of the judgment — before any level change made by
that same judgment's round completion, so the first question presented after
a level change still runs under the old level's limit.  The limit comes from
the fixed table 1↦4, 2↦6, 3↦6, 4↦10, 5↦14, 6↦16, 7↦20, 8↦22, 9↦26, 10↦30,
with every level outside [1,10] using the level-1 value 4. -/
theorem C6_timer_reset (d : SwipeDirection) (s : AppState) (c : MathProblem)
    (rest : List MathProblem) (hq : s.questions = c :: rest) :
    (handleSwipe d s).questionTimeLeft = getQuestionTimeLimit s.level ∧
    (handleSwipe d s).currentQuestionMaxTime = getQuestionTimeLimit s.level ∧
    getQuestionTimeLimit 1 = 4 ∧ getQuestionTimeLimit 2 = 6 ∧
    getQuestionTimeLimit 3 = 6 ∧ getQuestionTimeLimit 4 = 10 ∧
    getQuestionTimeLimit 5 = 14 ∧ getQuestionTimeLimit 6 = 16 ∧
    getQuestionTimeLimit 7 = 20 ∧ getQuestionTimeLimit 8 = 22 ∧
    getQuestionTimeLimit 9 = 26 ∧ getQuestionTimeLimit 10 = 30 ∧
    (∀ lvl : ℤ, lvl < 1 ∨ 10 < lvl → getQuestionTimeLimit lvl = 4) := by
  have htab : ∀ lvl : ℤ, lvl < 1 ∨ 10 < lvl → getQuestionTimeLimit lvl = 4 := by
    intro lvl hl
    simp only [getQuestionTimeLimit]
    split_ifs <;> first | rfl | omega
  have hf := handleSwipe_fields d s c rest hq
  exact ⟨hf.2.1, hf.2.2.1, by norm_num [getQuestionTimeLimit],
    by norm_num [getQuestionTimeLimit], by norm_num [getQuestionTimeLimit],
    by norm_num [getQuestionTimeLimit], by norm_num [getQuestionTimeLimit],
    by norm_num [getQuestionTimeLimit], by norm_num [getQuestionTimeLimit],
    by norm_num [getQuestionTimeLimit], by norm_num [getQuestionTimeLimit],
    by norm_num [getQuestionTimeLimit], htab⟩

/-- Witness for C6 (amended): a timeout judgment at the concrete timed-out
state resets the timer to the level-1 limit. -/
theorem C6_witness :
    (handleSwipe SwipeDirection.NONE exTimedOut).questionTimeLeft =
      getQuestionTimeLimit exTimedOut.level :=
  (C6_timer_reset SwipeDirection.NONE exTimedOut (exProblem true) _ rfl).1

set_option maxHeartbeats 1600000 in
/-- C3: the difficulty rules apply in order, first match winning: accuracy
`a ≤ 1/2` gives level `max 1 (level-1)`; else, with non-empty history and
`(a + last)/2 > 9/10`, level `min 10 (level+1)`; otherwise the level is
unchanged.  On an actual level change the round history is cleared and a
refill of `QUESTIONS_PER_ROUND = 10` questions at the new level is requested,
the existing queue untouched (resolved refills append to it); when the level
does not change — including when clamping leaves it equal — the accuracy is
appended to the round history instead. -/
theorem C3_difficulty (a : ℚ) (s : AppState) :
    (a ≤ 1/2 → (checkDifficulty a s).level = max 1 (s.level - 1)) ∧
    (¬ a ≤ 1/2 → s.roundHistory ≠ [] →
      (a + s.roundHistory.getLastD 0) / 2 > 9/10 →
      (checkDifficulty a s).level = min 10 (s.level + 1)) ∧
    (¬ a ≤ 1/2 → (s.roundHistory = [] ∨ (a + s.roundHistory.getLastD 0) / 2 ≤ 9/10) →
      (checkDifficulty a s).level = s.level) ∧
    ((checkDifficulty a s).level ≠ s.level →
      (checkDifficulty a s).roundHistory = [] ∧
      (checkDifficulty a s).refillReqs =
        s.refillReqs ++ [(QUESTIONS_PER_ROUND, (checkDifficulty a s).level)] ∧
      (checkDifficulty a s).questions = s.questions) ∧
    ((checkDifficulty a s).level = s.level →
      (checkDifficulty a s).roundHistory = s.roundHistory ++ [a]) ∧
    QUESTIONS_PER_ROUND = 10 ∧
    (∀ (qs : List MathProblem) (t : AppState),
      (loadQuestionsResolve qs t).questions = t.questions ++ qs) := by
  refine ⟨?_, ?_, ?_, ?_, ?_, rfl, fun qs t => rfl⟩
  · intro h
    simp only [checkDifficulty, loadQuestionsRequest]
    split_ifs <;> simp_all
  · intro h hne hgt
    have hlen : 0 < s.roundHistory.length := List.length_pos.mpr hne
    simp only [checkDifficulty, loadQuestionsRequest]
    split_ifs <;> simp_all
  · intro h hOr
    simp only [checkDifficulty, loadQuestionsRequest]
    split_ifs <;> simp_all
    rcases hOr with h1 | h1
    · simp_all
    · linarith
  · intro hne
    simp only [checkDifficulty, loadQuestionsRequest] at hne ⊢
    split_ifs at hne ⊢ <;> simp_all
  · intro heq
    simp only [checkDifficulty, loadQuestionsRequest] at heq ⊢
    split_ifs at heq ⊢ <;> simp_all

/-- Witness for C3: a 40% round at the concrete level-1 state keeps level
`max 1 (1-1) = 1`. -/
theorem C3_witness :
    (checkDifficulty (2/5) exPlaying).level = max 1 (exPlaying.level - 1) :=
  (C3_difficulty (2/5) exPlaying).1 (by norm_num)

/-- C9: the fallback of `generateQuestions` (taken on any failure of the
remote source) returns exactly `count` questions, each tagged
`difficulty = level`.  However, the "plausible-but-wrong" display can render
the true value: with the level-1 draw op `'-'`, a = 2, b = 1 (equation
`2 - 1`, true value 1), `shouldBeCorrect = false`, offset magnitude 2 and
negative sign, the displayed value is `|1 - 2| = 1`, producing the equation
string `"2 - 1 = 1"` — a mathematically true equation tagged
`isCorrect = false`, contradicting the code's own comment that the display
cannot be accidentally correct. -/
theorem C9_fallback_generator :
    (∀ (count : ℕ) (level : ℤ) (gen : ℕ → String × Bool),
      (generateQuestionsFallback count level gen).length = count ∧
      (generateQuestionsFallback count level gen).map MathProblem.difficulty
        = List.replicate count level) ∧
    (generateEquationLevel1 false false 2 1 2 false).isCorrect = false ∧
    (generateEquationLevel1 false false 2 1 2 false).trueValue = 1 ∧
    (generateEquationLevel1 false false 2 1 2 false).displayed = 1 ∧
    (generateEquationLevel1 false false 2 1 2 false).equation = "2 - 1 = 1" ∧
    (2 : ℤ) - 1 = 1 := by
  refine ⟨?_, by decide, by decide, by decide, by decide, by decide⟩
  intro count level gen
  constructor
  · simp [generateQuestionsFallback]
  · simp [generateQuestionsFallback, List.map_map, Function.comp_def, List.map_const']

end MathReflex
